import Mathlib

/-!
Shallow embedding of the `bedetheque_scraper` repository (Python) in Lean 4.

Strings are modelled as Lean `String`s (lists of `Char`s).  Python string
methods (`strip`, `removeprefix`, `removesuffix`, `split`, `lower`, ...) are
re-implemented below on `List Char` with Python's semantics.  The regular
expressions used by the source are small and fixed, so each one is embedded as
a direct leftmost-match functional matcher with Python's greedy semantics.
Fallible Python code (code that can raise) is modelled with `Except`;
functions that return `None` on soft failure are modelled with `Option`.
-/

namespace Bedetheque

/-- Characters accepted by Python's `str.strip()` and by the regex class
`\s` (ASCII whitespace plus the common Unicode space code points). -/
def pyIsSpace (c : Char) : Bool :=
  c == ' ' || c == '\t' || c == '\n' || c == '\r' || c == '\x0b' || c == '\x0c' ||
  c.toNat == 0x1c || c.toNat == 0x1d || c.toNat == 0x1e || c.toNat == 0x1f ||
  c.toNat == 0x85 || c.toNat == 0xa0 || c.toNat == 0x1680 ||
  (0x2000 ≤ c.toNat && c.toNat ≤ 0x200a) || c.toNat == 0x2028 || c.toNat == 0x2029 ||
  c.toNat == 0x202f || c.toNat == 0x205f || c.toNat == 0x3000

/-- `str.strip()` on a list of characters: drop whitespace on both ends. -/
def stripL (l : List Char) : List Char :=
  ((l.dropWhile pyIsSpace).reverse.dropWhile pyIsSpace).reverse

/-- Python `str.strip()`. -/
def pyStrip (s : String) : String := ⟨stripL s.data⟩

/-- `str.strip(chars)` on a list of characters. -/
def stripCharsL (cs : List Char) (l : List Char) : List Char :=
  ((l.dropWhile (cs.contains ·)).reverse.dropWhile (cs.contains ·)).reverse

/-- Python `str.strip(chars)`. -/
def pyStripChars (cs : List Char) (s : String) : String := ⟨stripCharsL cs s.data⟩

/-- `str.removeprefix` on lists of characters. -/
def cutStartL (p l : List Char) : List Char :=
  if p.isPrefixOf l then l.drop p.length else l

/-- Python `str.removeprefix`. -/
def pyCutStart (p s : String) : String := ⟨cutStartL p.data s.data⟩

/-- `str.removesuffix` on lists of characters. -/
def cutEndL (p l : List Char) : List Char :=
  if p.isSuffixOf l then l.take (l.length - p.length) else l

/-- Python `str.removesuffix`. -/
def pyCutEnd (p s : String) : String := ⟨cutEndL p.data s.data⟩

/-- Python `sub in s` (substring containment). -/
def containsSub (sub : List Char) : List Char → Bool
  | [] => sub.isEmpty
  | c :: cs => sub.isPrefixOf (c :: cs) || containsSub sub cs

/-- Python's `in` operator on strings. -/
def pyIn (sub s : String) : Bool := containsSub sub.data s.data

/-- Python `str.lower`, modelled over ASCII and the Latin-1 uppercase range. -/
def pyLowerChar (c : Char) : Char :=
  if 'A' ≤ c && c ≤ 'Z' then Char.ofNat (c.toNat + 32)
  else if 0xC0 ≤ c.toNat && c.toNat ≤ 0xDE && c.toNat != 0xD7 then Char.ofNat (c.toNat + 32)
  else c

/-- Python `str.lower` on a whole string. -/
def pyLower (s : String) : String := ⟨s.data.map pyLowerChar⟩

/-- Python `str.upper` on one character (ASCII range; field names are ASCII). -/
def pyUpperChar (c : Char) : Char :=
  if 'a' ≤ c && c ≤ 'z' then Char.ofNat (c.toNat - 32) else c

/-- Auxiliary for `str.split(sep)` with a non-empty separator: fuel-indexed
so that it is structurally recursive (every step consumes at least one input
character, so `fuel = l.length` always suffices). -/
def splitOnFuelL (sep : List Char) : Nat → List Char → List Char → List (List Char)
  | _, [], acc => [acc.reverse]
  | 0, l, acc => [acc.reverse ++ l]
  | fuel + 1, c :: cs, acc =>
    if sep.isPrefixOf (c :: cs) then
      acc.reverse :: splitOnFuelL sep fuel (cs.drop (sep.length - 1)) []
    else
      splitOnFuelL sep fuel cs (c :: acc)

/-- Python `str.split(sep)` on lists of characters (`sep` is never empty in
the embedded code; an empty separator returns the whole string unsplit). -/
def pySplitL (sep l : List Char) : List (List Char) :=
  match sep with
  | [] => [l]
  | _ :: _ => splitOnFuelL sep l.length l []

/-- Python `str.split(sep)`. -/
def pySplit (sep s : String) : List String := (pySplitL sep.data s.data).map (⟨·⟩)

/-- `s.split(sep)[0]`: the part of `l` before the first occurrence of `sep`. -/
def takeBeforeFirst (sep l : List Char) : List Char := (pySplitL sep l).headD l

/-- Python `str.startswith`. -/
def pyStarts (p s : String) : Bool := p.data.isPrefixOf s.data

/-- `", ".join(...)`-style joining of a list of strings with a separator. -/
def joinSep (sep : String) (l : List String) : String :=
  ⟨((l.map String.data).intersperse sep.data).flatten⟩

/-! ## `scraper.remove_accents` (scraper.py lines 55-66)

The source applies seven `re.sub` passes, one per accented-character class,
each replacing every occurrence of a character of the class by its
replacement string. -/

/-- One `re.sub("[class]", replacement, text)` pass: every character belonging
to `cls` is replaced by the string `rep`. -/
def accentSub (cls rep : List Char) : List Char → List Char
  | [] => []
  | c :: cs => (if cls.contains c then rep else [c]) ++ accentSub cls rep cs

def aCls : List Char := "àáâãäåÀÁÂÄÅÃ".data
def eCls : List Char := "èéêëÉÈÊË".data
def cCls : List Char := "çÇ".data
def iCls : List Char := "ìíîïÍÌÎÏ".data
def oCls : List Char := "òóôõöÓÒÔÖÕ".data
def uCls : List Char := "ùúûüÚÙÛÜ".data
def oeCls : List Char := "œŒ".data

/-- The seven substitution passes of `remove_accents`, in source order. -/
def removeAccentsL (l0 : List Char) : List Char :=
  let l1 := accentSub aCls "a".data l0
  let l2 := accentSub eCls "e".data l1
  let l3 := accentSub cCls "c".data l2
  let l4 := accentSub iCls "i".data l3
  let l5 := accentSub oCls "o".data l4
  let l6 := accentSub uCls "u".data l5
  accentSub oeCls "oe".data l6

/-- `scraper.remove_accents`. -/
def remove_accents (raw_text : String) : String := ⟨removeAccentsL raw_text.data⟩

/-- A character belonging to one of the seven substitution classes. -/
def isAccent (c : Char) : Bool :=
  aCls.contains c || eCls.contains c || cCls.contains c || iCls.contains c ||
  oCls.contains c || uCls.contains c || oeCls.contains c

/-! ## `scraper.revert_determiner` (scraper.py lines 69-110)

`PREFIX_PATTERN` is `^(alt1|alt2|...)\s` with `re.IGNORECASE`, likewise
`DETERMINER_PATTERN`.  Regex alternation picks the first alternative (in list
order) that lets the whole pattern match; `group(1)` is the slice of the
input that the alternative matched (original casing). -/

def PREFIXES : List String :=
  ["Les Aventures De", "Les Aventures D'", "Les Nouvelles Aventures De",
   "Les Nouvelles Aventures D'", "Une Aventure De", "Une Aventure D'"]

def DETERMINERS : List String :=
  ["Le", "La", "Les", "L'", "Un", "Une", "Des", "Du", "De", "D'", "The", "A", "An"]

/-- Case-insensitive literal prefix test (`re.IGNORECASE` literal match). -/
def ciPrefixAt : List Char → List Char → Bool
  | [], _ => true
  | _ :: _, [] => false
  | p :: ps, c :: cs => (pyLowerChar p == pyLowerChar c) && ciPrefixAt ps cs

/-- Does the list start with a `\s` character? -/
def headIsSpace : List Char → Bool
  | [] => false
  | c :: _ => pyIsSpace c

/-- `^(alt1|alt2|...)\s` anchored match: the first alternative (list order)
that matches case-insensitively and is followed by one whitespace character.
Returns `group(1)`: the matched slice of the input, with its original case. -/
def altMatch (alts : List String) (s : String) : Option String :=
  alts.findSome? fun a =>
    if ciPrefixAt a.data s.data && headIsSpace (s.data.drop a.data.length) then
      some ⟨s.data.take a.data.length⟩
    else none

/-- `scraper.revert_determiner`. -/
def revert_determiner (raw_text : String) : String :=
  let found : Option String :=
    match altMatch PREFIXES raw_text with
    | some p => some p
    | none => altMatch DETERMINERS raw_text
  match found with
  | some p => pyStrip (pyCutStart p raw_text) ++ " (" ++ pyCutEnd " " p ++ ")"
  | none => raw_text

/-- `scraper.sanitize_series_name`. -/
def sanitize_series_name (series_name : String) : String :=
  let series_name := revert_determiner series_name
  let series_to_find :=
    if pyIn " " series_name then (pySplit " " series_name).headD series_name
    else series_name
  remove_accents series_to_find

/-! ## `scraper.search_for_series` (scraper.py lines 125-158)

Only the operator-free part is modelled: the function returns the *first*
candidate whose display title equals (case-insensitively) the original series
name; when there is no such candidate it falls into the interactive
disambiguation protocol (logging the 1-indexed candidate menu and reading a
choice from the operator).  The menu layout is modelled by `menuEntries`. -/

structure Serie where
  title : String
  url : String
deriving DecidableEq, Repr

/-- The comparison `x.title.lower() == series_name.lower()`. -/
def serieTitleMatches (series_name : String) (x : Serie) : Bool :=
  pyLower x.title == pyLower series_name

/-- Outcome of the non-interactive part of `search_for_series`: either a
candidate is returned immediately, or the interactive protocol is entered. -/
inductive ResolveAction where
  | immediate (s : Serie)
  | interactive
deriving DecidableEq, Repr

/-- `next((x for x in series if x.title.lower() == series_name.lower()), None)`
followed by the early `return found`. -/
def searchResolveAction (series_name : String) (series : List Serie) : ResolveAction :=
  match series.find? (serieTitleMatches series_name) with
  | some found => .immediate found
  | none => .interactive

/-- The numbered menu logged by the interactive protocol: candidates are
listed 1-indexed, then "other" (or "enter a name" when the candidate list is
empty) and "quit". -/
def menuEntries (series : List Serie) : List (Nat × String) :=
  if series.isEmpty then [(1, "enter a name"), (2, "quit")]
  else (series.enum.map fun p => (p.1 + 1, p.2.title)) ++
    [(series.length + 1, "other"), (series.length + 2, "quit")]

/-! ## `file_name.py`: number and title extraction (lines 54-154)

Each regex of `NUMBER_PATTERNS` is embedded as a leftmost-search matcher
returning `(group(1), group(2))`; `re.search` tries every start position from
the left and the matcher applies the pattern's greedy semantics at one
position. -/

/-- `re.search` driver: try the positional matcher at each start position,
leftmost success wins (the empty suffix is tried last, as Python does). -/
def searchPos {α : Type} (f : List Char → Option α) : List Char → Option α
  | [] => f []
  | c :: cs =>
    match f (c :: cs) with
    | some r => some r
    | none => searchPos f cs

/-- `( T(\d+))` at one position. -/
def matchAtT (l : List Char) : Option (List Char × List Char) :=
  match l with
  | ' ' :: 'T' :: rest =>
    let ds := rest.takeWhile Char.isDigit
    if ds.isEmpty then none else some (' ' :: 'T' :: ds, ds)
  | _ => none

/-- `((\d+))` at one position (both groups are the digit run). -/
def matchAtBare (l : List Char) : Option (List Char × List Char) :=
  match l with
  | c :: cs =>
    if c.isDigit then
      let ds := c :: cs.takeWhile Char.isDigit
      some (ds, ds)
    else none
  | [] => none

/-- `( [Tt]ome\s*(\d+))` at one position. -/
def matchAtTome (l : List Char) : Option (List Char × List Char) :=
  match l with
  | ' ' :: t :: 'o' :: 'm' :: 'e' :: rest =>
    if t == 'T' || t == 't' then
      let ws := rest.takeWhile pyIsSpace
      let r2 := rest.dropWhile pyIsSpace
      let ds := r2.takeWhile Char.isDigit
      if ds.isEmpty then none
      else some (' ' :: t :: 'o' :: 'm' :: 'e' :: (ws ++ ds), ds)
    else none
  | _ => none

/-- `\s?(\d+)`: greedy optional whitespace character, then a digit run. -/
def volTail (r : List Char) : Option (List Char × List Char) :=
  match r with
  | c :: cs =>
    if pyIsSpace c then
      let ds := cs.takeWhile Char.isDigit
      if ds.isEmpty then
        let ds0 := r.takeWhile Char.isDigit
        if ds0.isEmpty then none else some (ds0, ds0)
      else some (c :: ds, ds)
    else
      let ds0 := r.takeWhile Char.isDigit
      if ds0.isEmpty then none else some (ds0, ds0)
  | [] => none

/-- `( Vol(?:ume)?\s?(\d+))` at one position (greedy `(?:ume)?` first). -/
def matchAtVol (l : List Char) : Option (List Char × List Char) :=
  match l with
  | ' ' :: 'V' :: 'o' :: 'l' :: rest =>
    let withUme : Option (List Char × List Char) :=
      match rest with
      | 'u' :: 'm' :: 'e' :: r2 =>
        (volTail r2).map fun p => ('u' :: 'm' :: 'e' :: p.1, p.2)
      | _ => none
    match withUme with
    | some p => some (' ' :: 'V' :: 'o' :: 'l' :: p.1, p.2)
    | none => (volTail rest).map fun p => (' ' :: 'V' :: 'o' :: 'l' :: p.1, p.2)
  | _ => none

/-- `( -\s*(\d+)\s*-)` at one position. -/
def matchAtDash (l : List Char) : Option (List Char × List Char) :=
  match l with
  | ' ' :: '-' :: rest =>
    let ws1 := rest.takeWhile pyIsSpace
    let r2 := rest.dropWhile pyIsSpace
    let ds := r2.takeWhile Char.isDigit
    let r3 := r2.dropWhile Char.isDigit
    let ws2 := r3.takeWhile pyIsSpace
    let r4 := r3.dropWhile pyIsSpace
    if ds.isEmpty then none
    else
      match r4 with
      | '-' :: _ => some (' ' :: '-' :: (ws1 ++ ds ++ ws2 ++ ['-']), ds)
      | _ => none
  | _ => none

/-- `file_name.NUMBER_PATTERNS`, in source priority order. -/
def NUMBER_PATTERNS : List (List Char → Option (List Char × List Char)) :=
  [searchPos matchAtT, searchPos matchAtBare, searchPos matchAtTome,
   searchPos matchAtVol, searchPos matchAtDash]

/-- Result of `BDFile.get_number`: `block` is `match.group(1)` (stored in
`found_number`), `raw` is `match.group(2)` as matched, `number` is the
canonical stored `self.number`. -/
structure NumberResult where
  block : List Char
  raw : List Char
  number : List Char
deriving DecidableEq, Repr

/-- The year-rejection test: `len(number) == 4 and any(number.startswith(x)
for x in ["19", "20"])`. -/
def isProbableYear (raw : List Char) : Bool :=
  raw.length == 4 && ("19".data.isPrefixOf raw || "20".data.isPrefixOf raw)

/-- `str(int(number)) if number.isdigit() else number`: strip leading zeros
from a fully numeric match. -/
def canonicalNumber (raw : List Char) : List Char :=
  if !raw.isEmpty && raw.all Char.isDigit then
    let t := raw.dropWhile (· == '0')
    if t.isEmpty then ['0'] else t
  else raw

/-- The pattern loop of `BDFile.get_number`: first pattern with a match wins,
except that a probable-year match makes the loop continue with the next
pattern in sequence. -/
def getNumberAux : List (List Char → Option (List Char × List Char)) → List Char →
    Option NumberResult
  | [], _ => none
  | p :: ps, s =>
    match p s with
    | some (block, num) =>
      if isProbableYear num then getNumberAux ps s
      else some ⟨block, num, canonicalNumber num⟩
    | none => getNumberAux ps s

/-- `BDFile.get_number` on a file stem. -/
def get_number (stem : String) : Option NumberResult :=
  getNumberAux NUMBER_PATTERNS stem.data

/-- `ALREADY_FORMATTED_PATTERN = (.*) #\d+.*`: does position `i` of `l` start
`" #<digit>"`? -/
def checkHashAt (l : List Char) (i : Nat) : Bool :=
  match l.drop i with
  | ' ' :: '#' :: d :: _ => d.isDigit
  | _ => false

/-- Search for `(.*) #\d+.*`: the greedy `(.*)` makes `group(1)` the prefix
before the *last* occurrence of `" #<digit>"`. -/
def alreadyFormattedTitle (l : List Char) : Option (List Char) :=
  match ((List.range l.length).filter (checkHashAt l)).getLast? with
  | some i => some (l.take i)
  | none => none

/-- Python's `\w` over the character ranges appearing in the repository
(ASCII word characters plus Latin-1 and Latin Extended-A letters). -/
def isWordCharPy (c : Char) : Bool :=
  c.isAlphanum || c == '_' ||
  (0xC0 ≤ c.toNat && c.toNat ≤ 0xFF && c.toNat != 0xD7 && c.toNat != 0xF7) ||
  (0x100 ≤ c.toNat && c.toNat ≤ 0x17F)

def isAsciiAlpha (c : Char) : Bool :=
  ('A' ≤ c && c ≤ 'Z') || ('a' ≤ c && c ≤ 'z')

/-- The apostrophe character (`'`). -/
def apoChar : Char := Char.ofNat 39

/-- The class `[\w '&.-]` of `TITLE_PATTERNS`. -/
def isTitleClassChar (c : Char) : Bool :=
  isWordCharPy c || c == ' ' || c == apoChar || c == '&' || c == '.' || c == '-'

/-- `/?([a-zA-Z][\w '&.-]+)` at one position. -/
def matchAtTitle (l : List Char) : Option (List Char) :=
  match l with
  | '/' :: c :: cs =>
    if isAsciiAlpha c then
      let run := cs.takeWhile isTitleClassChar
      if run.isEmpty then none else some (c :: run)
    else none
  | c :: cs =>
    if isAsciiAlpha c then
      let run := cs.takeWhile isTitleClassChar
      if run.isEmpty then none else some (c :: run)
    else none
  | [] => none

/-- State machine for `re.sub(r"\s{2,}", " ", string)`: while inside a
whitespace run the state remembers the run's first character and whether the
run already has at least two characters; a run of length one is emitted
verbatim, a longer run is emitted as a single space. -/
def collapseWsAux : Option (Char × Bool) → List Char → List Char
  | none, [] => []
  | some (w, more), [] => if more then [' '] else [w]
  | none, c :: cs => if pyIsSpace c then collapseWsAux (some (c, false)) cs else c :: collapseWsAux none cs
  | some (w, more), c :: cs =>
    if pyIsSpace c then collapseWsAux (some (w, true)) cs
    else (if more then [' '] else [w]) ++ c :: collapseWsAux none cs

/-- `file_name.replace_double_spaces`: every run of two or more whitespace
characters becomes a single space; isolated whitespace characters are kept as
they are. -/
def collapseWs (l : List Char) : List Char := collapseWsAux none l

/-- The suffix-stripping loop of `get_title`: for each suffix in the fixed
list, `removesuffix` then `strip`. -/
def stripSuffixChainL (l : List Char) : List Char :=
  (["-", "_", ":", "â€“", "."].map String.data).foldl
    (fun n sfx => stripL (cutEndL sfx n)) l

/-- The per-candidate body of the `get_title` loop: truncate at the matched
number substring (when a number was found), keep the part before `" - "`,
collapse duplicated whitespace, strip trailing punctuation, then search the
leading word-run pattern. -/
def processCandidate (found_number : List Char) (name : List Char) : Option (List Char) :=
  let n1 := if found_number.isEmpty then name else stripL (takeBeforeFirst found_number name)
  let n2 := stripL (takeBeforeFirst " - ".data n1)
  let n3 := collapseWs n2
  let n4 := stripSuffixChainL n3
  searchPos matchAtTitle n4

/-- The candidate loop of `get_title`: file stem first, then ancestors
nearest-first; the first candidate producing a match wins. -/
def getTitleLoop (found_number : List Char) : List (List Char) → Option (List Char)
  | [] => none
  | name :: rest =>
    match processCandidate found_number name with
    | some t => some t
    | none => getTitleLoop found_number rest

/-- `BDFile.get_title` (the regex-derived title). -/
def get_title (stem : String) (parents : List String) (found_number : String) :
    Option String :=
  match alreadyFormattedTitle stem.data with
  | some t => some ⟨t⟩
  | none => (getTitleLoop found_number.data (stem.data :: parents.map String.data)).map (⟨·⟩)

/-- The fields of `BDFile` that number/title extraction fills in. -/
structure ParsedBDFile where
  number : Option String
  found_number : String
  title : Option String
deriving DecidableEq, Repr

/-- `BDFile.__post_init__`'s calls to `get_number` then `get_title`. -/
def parseBDFile (stem : String) (parents : List String) : ParsedBDFile :=
  match get_number stem with
  | some r =>
    { number := some ⟨r.number⟩, found_number := ⟨r.block⟩
      title := get_title stem parents ⟨r.block⟩ }
  | none => { number := none, found_number := "", title := get_title stem parents "" }

/-! ## `scraper.get_authors` / `get_author_info_from_block`
(scraper.py lines 240-268)

A `<li>` block of the album-detail label list is modelled by its label text
(`None` when the block has no `<label>` element), its full text, and the
`href` of its first anchor (`None` when the block has no anchor, in which
case Python raises `AttributeError`).  Raised exceptions are modelled with
`Except String`. -/

structure Block where
  label : Option String
  text : String
  href : Option String
deriving DecidableEq, Repr

/-- `scraper.Author` (the dataclass); `found_name` is the `InitVar` the
record was built from, kept here so that properties can mention it. -/
structure Author where
  found_name : String
  url : String
  name : String
  first_name : String
  last_name : String
deriving DecidableEq, Repr

/-- `Author.__post_init__`: a `"Last, First"` name is normalized to
`"First Last"`; a name splitting into three or more parts raises
(`ValueError` on tuple unpacking). -/
def mkAuthor (found_name url : String) : Except String Author :=
  if pyIn ", " found_name then
    match pySplit ", " found_name with
    | [last_name, first_name] =>
      .ok ⟨found_name, url, first_name ++ " " ++ last_name, first_name, last_name⟩
    | _ => .error "ValueError: unpack"
  else .ok ⟨found_name, url, found_name, "", ""⟩

/-- The sentinel placeholder names dropped by `get_author_info_from_block`. -/
def sentinelNames : List String := ["<N&B>", "<Quadrichromie>"]

/-- `block.text.strip().removeprefix(role).strip("\r\n ")`. -/
def rawNameOf (block : Block) (role : String) : String :=
  pyStripChars ['\r', '\n', ' '] (pyCutStart role (pyStrip block.text))

/-- `scraper.get_author_info_from_block`. -/
def get_author_info_from_block (block : Block) (role : String) :
    Except String (Option Author) :=
  match block.href with
  | none => .error "AttributeError: no anchor in author block"
  | some url =>
    if sentinelNames.contains (rawNameOf block role) then .ok none
    else (mkAuthor (rawNameOf block role) url).map some

/-- `next((x for x in content.find_all("li") if x.find("label").text == role),
None)`: the first block whose label text equals the role, together with the
following blocks; a block without a label makes Python raise. -/
def findStart : List Block → String → Except String (Option (Block × List Block))
  | [], _ => .ok none
  | b :: bs, role =>
    match b.label with
    | none => .error "AttributeError: block without label"
    | some l => if l == role then .ok (some (b, bs)) else findStart bs role

/-- The `while` loop's continuation condition: following sibling blocks that
have a label whose stripped text is empty. -/
def takeConts (bs : List Block) : List Block :=
  bs.takeWhile fun nb =>
    match nb.label with
    | some l => pyStrip l == ""
    | none => false

/-- Sequential effectful map over a list (`Except` short-circuits at the
first raised error, like the Python loop). -/
def mapExcept {α β : Type} (f : α → Except String β) : List α → Except String (List β)
  | [] => .ok []
  | x :: xs =>
    match f x with
    | .error e => .error e
    | .ok y =>
      match mapExcept f xs with
      | .error e => .error e
      | .ok ys => .ok (y :: ys)

/-- `scraper.get_authors`: authors of the starting block and of its blank-label
continuation blocks, in order, dropping sentinel entries. -/
def get_authors (content : List Block) (role : String) : Except String (List Author) :=
  match findStart content role with
  | .error e => .error e
  | .ok none => .ok []
  | .ok (some (b, rest)) =>
    match mapExcept (fun blk => get_author_info_from_block blk role) (b :: takeConts rest) with
    | .error e => .error e
    | .ok opts => .ok (opts.filterMap id)

/-- The combined display string for a role:
`", ".join([x.name for x in authors])` as used by `get_album_info`. -/
def roleDisplay (authors : List Author) : String := joinSep ", " (authors.map Author.name)

/-! ## `scraper.Album`, `scraper.Page`, `ToDictMixin.to_dict`, `to_camelcase`
(scraper.py lines 347-505)

The float field `community_rating` is modelled as a rational; the `Literal`
string fields are modelled as `String`.  A serialized dict is an association
list preserving insertion order (Python dicts preserve it). -/

/-- `scraper.Page` (all fields, source order and defaults). -/
structure Page where
  image : Int
  type : String := "Story"
  double_page : Bool := false
  image_size : Int := 0
  key : String := ""
  bookmark : String := ""
  image_width : Int := -1
  image_height : Int := -1
deriving DecidableEq, Repr

/-- `scraper.Album` (all fields, source order and defaults; `web` is set to
`url` by `__post_init__`, see `mkAlbumStub`). -/
structure Album where
  url : String
  title : String := ""
  series : String := ""
  number : String := ""
  count : Int := -1
  volume : Int := -1
  alternate_series : String := ""
  alternate_number : String := ""
  alternate_count : Int := -1
  summary : String := ""
  notes : String := ""
  year : Int := -1
  month : Int := -1
  day : Int := -1
  writers : List Author := []
  pencillers : List Author := []
  inkers : List Author := []
  colorists : List Author := []
  letterers : List Author := []
  cover_artists : List Author := []
  editors : List Author := []
  writer : String := ""
  penciller : String := ""
  inker : String := ""
  colorist : String := ""
  letterer : String := ""
  cover_artist : String := ""
  editor : String := ""
  publisher : String := ""
  imprint : String := ""
  genre : String := ""
  web : String := ""
  page_count : Int := 0
  language_iso : String := "FR"
  format : String := ""
  black_and_white : String := "Unknown"
  manga : String := "Unknown"
  characters : String := ""
  teams : String := ""
  locations : String := ""
  scan_information : String := ""
  story_arc : String := ""
  series_group : String := ""
  age_rating : String := "Unknown"
  pages : List Page := []
  community_rating : ℚ := 0
  main_character_or_team : String := ""
  review : String := ""
  isbn : String := ""
  barcode : String := ""
deriving DecidableEq, Repr

/-- An `Album(...)` construction as done by `get_albums`:
`__post_init__` copies `url` into `web`. -/
def mkAlbumStub (title url number series genre : String) : Album :=
  { url := url, title := title, number := number, series := series, genre := genre
    web := url }

/-- `scraper.to_camelcase`: `"".join(x.capitalize() or "_" for x in
string.split("_"))`. -/
def pyCapitalize (s : String) : String :=
  match s.data with
  | [] => ""
  | c :: cs => ⟨pyUpperChar c :: cs.map pyLowerChar⟩

def to_camelcase (string : String) : String :=
  joinSep "" ((pySplit "_" string).map fun x =>
    let c := pyCapitalize x
    if c == "" then "_" else c)

/-- A value of a serialized dict entry. -/
inductive DVal where
  | str (s : String)
  | int (n : Int)
  | bool (b : Bool)
  | rat (q : ℚ)
  | dicts (l : List (List (String × DVal)))
deriving Repr

/-- Dataclass field metadata relevant to `ToDictMixin.to_dict`. -/
structure FieldSpec where
  name : String
  camelcase : Option String := none
  not_included : Bool := false

/-- A raw dataclass field value before serialization: a plain value, or a
list of `Author`s (which has no `to_dict` and would raise), or a list of
`Page`s (serialized recursively). -/
inductive AVal where
  | atom (d : DVal)
  | authorList (l : List Author)
  | pageList (l : List Page)

/-- The element name of a field: the `camelcase` metadata override when
present, else `to_camelcase` of the field name. -/
def fieldKey (f : FieldSpec) : String := f.camelcase.getD (to_camelcase f.name)

/-- `dataclasses.fields(Page)` with each field's value, in declaration
order. -/
def pageFields (p : Page) : List (FieldSpec × DVal) :=
  [({name := "image"}, .int p.image),
   ({name := "type"}, .str p.type),
   ({name := "double_page"}, .bool p.double_page),
   ({name := "image_size"}, .int p.image_size),
   ({name := "key"}, .str p.key),
   ({name := "bookmark"}, .str p.bookmark),
   ({name := "image_width"}, .int p.image_width),
   ({name := "image_height"}, .int p.image_height)]

/-- `ToDictMixin.to_dict` instantiated at `Page` (no field of `Page` is
list-valued or excluded, so this instance is total). -/
def page_to_dict (p : Page) : List (String × DVal) :=
  (pageFields p).filterMap fun fv =>
    if fv.1.not_included then none else some (fieldKey fv.1, fv.2)

/-- The `isinstance(value, list)` branch of `to_dict`: lists are serialized
element-wise via `x.to_dict()`; `Author` has no `to_dict`, so an author list
would raise `AttributeError`. -/
def serializeAVal : AVal → Except String DVal
  | .atom d => .ok d
  | .pageList ps => .ok (.dicts (ps.map page_to_dict))
  | .authorList _ => .error "AttributeError: Author has no to_dict"

/-- `dataclasses.fields(Album)` with metadata and each field's value, in
declaration order (scraper.py lines 372-448). -/
def albumFields (a : Album) : List (FieldSpec × AVal) :=
  [({name := "url", not_included := true}, .atom (.str a.url)),
   ({name := "title"}, .atom (.str a.title)),
   ({name := "series"}, .atom (.str a.series)),
   ({name := "number"}, .atom (.str a.number)),
   ({name := "count"}, .atom (.int a.count)),
   ({name := "volume"}, .atom (.int a.volume)),
   ({name := "alternate_series"}, .atom (.str a.alternate_series)),
   ({name := "alternate_number"}, .atom (.str a.alternate_number)),
   ({name := "alternate_count"}, .atom (.int a.alternate_count)),
   ({name := "summary"}, .atom (.str a.summary)),
   ({name := "notes"}, .atom (.str a.notes)),
   ({name := "year"}, .atom (.int a.year)),
   ({name := "month"}, .atom (.int a.month)),
   ({name := "day"}, .atom (.int a.day)),
   ({name := "writers", not_included := true}, .authorList a.writers),
   ({name := "pencillers", not_included := true}, .authorList a.pencillers),
   ({name := "inkers", not_included := true}, .authorList a.inkers),
   ({name := "colorists", not_included := true}, .authorList a.colorists),
   ({name := "letterers", not_included := true}, .authorList a.letterers),
   ({name := "cover_artists", not_included := true}, .authorList a.cover_artists),
   ({name := "editors", not_included := true}, .authorList a.editors),
   ({name := "writer"}, .atom (.str a.writer)),
   ({name := "penciller"}, .atom (.str a.penciller)),
   ({name := "inker"}, .atom (.str a.inker)),
   ({name := "colorist"}, .atom (.str a.colorist)),
   ({name := "letterer"}, .atom (.str a.letterer)),
   ({name := "cover_artist"}, .atom (.str a.cover_artist)),
   ({name := "editor"}, .atom (.str a.editor)),
   ({name := "publisher"}, .atom (.str a.publisher)),
   ({name := "imprint"}, .atom (.str a.imprint)),
   ({name := "genre"}, .atom (.str a.genre)),
   ({name := "web"}, .atom (.str a.web)),
   ({name := "page_count"}, .atom (.int a.page_count)),
   ({name := "language_iso", camelcase := some "LanguageISO"}, .atom (.str a.language_iso)),
   ({name := "format"}, .atom (.str a.format)),
   ({name := "black_and_white"}, .atom (.str a.black_and_white)),
   ({name := "manga"}, .atom (.str a.manga)),
   ({name := "characters"}, .atom (.str a.characters)),
   ({name := "teams"}, .atom (.str a.teams)),
   ({name := "locations"}, .atom (.str a.locations)),
   ({name := "scan_information"}, .atom (.str a.scan_information)),
   ({name := "story_arc"}, .atom (.str a.story_arc)),
   ({name := "series_group"}, .atom (.str a.series_group)),
   ({name := "age_rating"}, .atom (.str a.age_rating)),
   ({name := "pages"}, .pageList a.pages),
   ({name := "community_rating"}, .atom (.rat a.community_rating)),
   ({name := "main_character_or_team"}, .atom (.str a.main_character_or_team)),
   ({name := "review"}, .atom (.str a.review)),
   ({name := "isbn", not_included := true}, .atom (.str a.isbn)),
   ({name := "barcode", not_included := true}, .atom (.str a.barcode))]

/-- `ToDictMixin.to_dict` instantiated at `Album`: per field, compute the
element name, skip `not_included` fields, serialize the value (list values
recursively). -/
def album_to_dict (a : Album) : Except String (List (String × DVal)) :=
  match
    mapExcept
      (fun fv =>
        if fv.1.not_included then .ok none
        else (serializeAVal fv.2).map fun d => some (fieldKey fv.1, d))
      (albumFields a)
  with
  | .error e => .error e
  | .ok entries => .ok (entries.filterMap id)

/-! ## `scraper.get_albums` (scraper.py lines 201-237)

A fetched series page is modelled by the parsed features the function reads:
the optional `serie-info` genre block, the optional multi-album list `div`,
and the optional single-album `album-main` block. -/

/-- One `<li>` of the `serie-info` block. -/
structure GenreLine where
  label : Option String
  span : Option String
deriving DecidableEq, Repr

/-- One `<li>` of the multi-album list: anchor text, anchor `href`, label
text. -/
structure ListEntry where
  aText : String
  aHref : String
  labelText : String
deriving DecidableEq, Repr

/-- The `<a class="titre">` of a single-album page: `title` attribute and
`href`. -/
structure TitreBlock where
  title : String
  href : String
deriving DecidableEq, Repr

/-- The `album-main` block of a single-album page. -/
structure AlbumMainBlock where
  titre : Option TitreBlock
deriving DecidableEq, Repr

/-- The parsed features of a series page that `get_albums` reads. -/
structure SerieDoc where
  serieInfo : Option (List GenreLine)
  albumsListDiv : Option (List ListEntry)
  albumMain : Option AlbumMainBlock
deriving DecidableEq, Repr

/-- The genre loop of `get_albums`: the first `serie-info` line whose label
strips to "Genre :" provides the genre; a matching line without a `<span>`
raises. -/
def genreFrom : List GenreLine → Except String String
  | [] => .ok ""
  | line :: rest =>
    match line.label with
    | some l =>
      if pyStrip l == "Genre :" then
        match line.span with
        | some t => .ok (pyStrip t)
        | none => .error "AttributeError: genre line without span"
      else genreFrom rest
    | none => genreFrom rest

def genreOf (doc : SerieDoc) : Except String String :=
  match doc.serieInfo with
  | none => .ok ""
  | some lines => genreFrom lines

/-- `scraper.get_albums`: multi-album list when present, else the
single-album block; `ValueError` when neither (or when the single-album block
has no title anchor). -/
def get_albums (serie : Serie) (doc : SerieDoc) : Except String (List Album) :=
  match genreOf doc with
  | .error e => .error e
  | .ok genre =>
    match doc.albumsListDiv with
    | some entries =>
      .ok (entries.map fun e =>
        mkAlbumStub (pyStrip e.aText) e.aHref (pyCutEnd "." (pyStrip e.labelText))
          serie.title genre)
    | none =>
      match doc.albumMain with
      | none => .error "No album found"
      | some block =>
        match block.titre with
        | none => .error "No title found"
        | some tb => .ok [mkAlbumStub tb.title tb.href "" serie.title genre]

/-! ## `scraper.scrape` (scraper.py lines 508-535): number filtering -/

/-- Python truthiness of the optional `numbers` argument. -/
def numbersTruthy : Option (List String) → Bool
  | none => false
  | some ns => !ns.isEmpty

/-- The filtering step of `scrape`:
`if numbers: albums = [x for x in albums if str(x.number).lower() in numbers]`. -/
def filter_albums (albums : List Album) (numbers : Option (List String)) : List Album :=
  if numbersTruthy numbers then
    albums.filter fun x => (numbers.getD []).contains (pyLower x.number)
  else albums

/-- The album loop of `scrape` after filtering: fetch detail info for each
remaining stub, skipping stubs whose detail fetch returns no info. -/
def scrapeDetailStage (albums : List Album) (numbers : Option (List String))
    (get_info : Album → Option Album) : List Album :=
  (filter_albums albums numbers).filterMap get_info

/-! ## `series.py`: IP-block guard and batch loop (series.py lines 50-149) -/

/-- The site-side IP-block marker string. -/
def IP_BLOCK_MARKER : String := "Votre IP a ete bloquee"

/-- Errors raised by `series.scrape_info_from_url`. -/
inductive ScrapeError where
  | ipBlocked
  | attrError
deriving DecidableEq, Repr

/-- An anchor element: its optional `href` attribute. -/
structure AnchorBlock where
  href : Option String
deriving DecidableEq, Repr

/-- The `<h1>` title block of an album page. -/
structure H1Block where
  text : String
  a : Option AnchorBlock
deriving DecidableEq, Repr

/-- One `<li>` of the `serie-liee` block. -/
structure LineItem where
  a : Option AnchorBlock
deriving DecidableEq, Repr

/-- The parsed features of a fetched page used by `scrape_info_from_url`:
raw content (for the IP-block guard), title block, linked-series block. -/
structure FetchedDoc where
  content : String
  h1 : Option H1Block
  serieLiees : Option (List LineItem)
deriving Repr

/-- `SERIES_URL_PATTERN.match(url).group(1)`: the digits after
`"serie-"` in a `https://www.bedetheque.com/serie-<id>-<name>.html` URL
(`None` when the pattern does not match, which makes `.group` raise). -/
def seriesIdOf (u : String) : Option String :=
  let pre := "https://www.bedetheque.com/serie-".data
  if pre.isPrefixOf u.data then
    let rest := u.data.drop pre.length
    let ds := rest.takeWhile Char.isDigit
    let after := rest.dropWhile Char.isDigit
    if ds.isEmpty then none
    else
      match after with
      | '-' :: r2 =>
        if (List.range r2.length).any (fun k => 2 ≤ k && "html".data.isPrefixOf (r2.drop k))
        then some ⟨ds⟩ else none
      | _ => none
  else none

/-- `url.startswith("https://www.bedetheque.com/") or
url.startswith("http://www.bedetheque.com/")`. -/
def bedethequeUrl (u : String) : Bool :=
  pyStarts "https://www.bedetheque.com/" u || pyStarts "http://www.bedetheque.com/" u

/-- The `serie-liee` loop: collect the series id of each linked entry,
skipping entries whose anchor has no `href`; a missing anchor or a
non-matching URL raises. -/
def linkedIdsOf : List LineItem → Except ScrapeError (List String)
  | [] => .ok []
  | it :: rest =>
    match it.a with
    | none => .error .attrError
    | some anchor =>
      match anchor.href with
      | none => linkedIdsOf rest
      | some h =>
        match seriesIdOf h with
        | none => .error .attrError
        | some lid =>
          match linkedIdsOf rest with
          | .error e => .error e
          | .ok ids => .ok (lid :: ids)

/-- `series.scrape_info_from_url`: the IP-block guard raises first; soft
failures (`return None`) are `Option.none`; `fetch` models `requests.get`
plus HTML parsing. -/
def scrape_info_from_url (fetch : String → FetchedDoc) (url : String) :
    Except ScrapeError (Option (String × String × List String)) :=
  let page := fetch url
  if pyIn IP_BLOCK_MARKER page.content then .error .ipBlocked
  else
    match page.h1 with
    | none => .ok none
    | some tb =>
      match tb.a with
      | none => .error .attrError
      | some anchor =>
        match anchor.href with
        | none => .ok none
        | some series_url =>
          if !bedethequeUrl series_url then .ok none
          else
            let spage := fetch series_url
            match spage.serieLiees with
            | none => .ok none
            | some items =>
              match seriesIdOf series_url with
              | none => .error .attrError
              | some sid =>
                match linkedIdsOf items with
                | .error e => .error e
                | .ok linked => .ok (some (sid, pyStrip tb.text, linked))

/-- One entry of the `LINKED_SERIES` mapping (`series.Series`). -/
structure SeriesEntry where
  id : String
  name : String
  linked_series : List String
deriving DecidableEq, Repr

/-- The `LINKED_SERIES` update of `series.main`: extend an existing entry's
linked list, or insert a new entry (the mapping is modelled as an insertion
ordered association list). -/
def updateLinked (m : List (String × SeriesEntry)) (sid title : String)
    (linked : List String) : List (String × SeriesEntry) :=
  if m.any (fun p => p.1 == sid) then
    m.map fun p =>
      if p.1 == sid then (p.1, { p.2 with linked_series := p.2.linked_series ++ linked })
      else p
  else m ++ [(sid, ⟨sid, title, linked⟩)]

/-- One candidate `.cbz` file of the batch: its parent folder and the URL
read from its embedded record (archive inspection is an external
collaborator, so the URL is given as data). -/
structure BookFile where
  parent : String
  url : Option String
deriving DecidableEq, Repr

/-- The mutable state of `series.main`: the linked-series mapping and the
set of treated folders. -/
structure BatchState where
  linked : List (String × SeriesEntry)
  treated : List String
deriving DecidableEq, Repr

/-- One iteration of the `series.main` batch loop over a file. -/
def processOne (fetch : String → FetchedDoc) (st : BatchState) (f : BookFile) :
    Except ScrapeError BatchState :=
  if st.treated.contains f.parent then .ok st
  else
    let afterScrape : Except ScrapeError BatchState :=
      match f.url with
      | none => .ok st
      | some url =>
        if bedethequeUrl url then
          match scrape_info_from_url fetch url with
          | .error e => .error e
          | .ok none => .ok st
          | .ok (some (sid, title, linked)) =>
            .ok { st with linked := updateLinked st.linked sid title linked }
        else .ok st
    match afterScrape with
    | .error e => .error e
    | .ok st2 => .ok { st2 with treated := st2.treated ++ [f.parent] }

/-- The batch loop of `series.main`: an uncaught error stops the whole
batch. -/
def processAll (fetch : String → FetchedDoc) (st : BatchState) :
    List BookFile → Except ScrapeError BatchState
  | [] => .ok st
  | f :: fs =>
    match processOne fetch st f with
    | .error e => .error e
    | .ok st2 => processAll fetch st2 fs

end Bedetheque

namespace Bedetheque

lemma mem_accentSub {cls rep : List Char} {l : List Char} {c : Char}
    (h : c ∈ accentSub cls rep l) : c ∈ rep ∨ (c ∈ l ∧ cls.contains c = false) := by
  induction l with
  | nil => simp [accentSub] at h
  | cons x xs ih =>
    simp only [accentSub, List.mem_append] at h
    rcases h with h | h
    · split at h
      · exact Or.inl h
      · next hx =>
        simp only [List.mem_singleton] at h
        subst h
        exact Or.inr ⟨List.mem_cons_self _ _, by simpa using hx⟩
    · rcases ih h with h1 | ⟨h2, h3⟩
      · exact Or.inl h1
      · exact Or.inr ⟨List.mem_cons_of_mem _ h2, h3⟩

lemma accentSub_of_none {cls rep : List Char} {l : List Char}
    (h : ∀ c ∈ l, cls.contains c = false) : accentSub cls rep l = l := by
  induction l with
  | nil => rfl
  | cons x xs ih =>
    have hx := h x (List.mem_cons_self _ _)
    simp only [accentSub, hx]
    simp only [Bool.false_eq_true, if_false, List.singleton_append, List.cons.injEq, true_and]
    exact ih fun c hc => h c (List.mem_cons_of_mem _ hc)

lemma removeAccentsL_noAccent {l : List Char} : ∀ c ∈ removeAccentsL l, isAccent c = false := by
  intro c hc
  simp only [removeAccentsL] at hc
  rcases mem_accentSub hc with h | ⟨hc, h7⟩
  · fin_cases h <;> decide
  rcases mem_accentSub hc with h | ⟨hc, h6⟩
  · fin_cases h <;> decide
  rcases mem_accentSub hc with h | ⟨hc, h5⟩
  · fin_cases h <;> decide
  rcases mem_accentSub hc with h | ⟨hc, h4⟩
  · fin_cases h <;> decide
  rcases mem_accentSub hc with h | ⟨hc, h3⟩
  · fin_cases h <;> decide
  rcases mem_accentSub hc with h | ⟨hc, h2⟩
  · fin_cases h <;> decide
  rcases mem_accentSub hc with h | ⟨_, h1⟩
  · fin_cases h <;> decide
  · simp only [isAccent, h1, h2, h3, h4, h5, h6, h7, Bool.or_self, Bool.or_false]

lemma removeAccentsL_fixed {l : List Char}
    (h : ∀ c ∈ l, isAccent c = false) : removeAccentsL l = l := by
  have hcls : ∀ c ∈ l, aCls.contains c = false ∧ eCls.contains c = false ∧
      cCls.contains c = false ∧ iCls.contains c = false ∧ oCls.contains c = false ∧
      uCls.contains c = false ∧ oeCls.contains c = false := by
    intro c hc
    have := h c hc
    simp only [isAccent, Bool.or_eq_false_iff] at this
    tauto
  simp only [removeAccentsL]
  rw [accentSub_of_none (fun c hc => (hcls c hc).1)]
  rw [accentSub_of_none (fun c hc => (hcls c hc).2.1)]
  rw [accentSub_of_none (fun c hc => (hcls c hc).2.2.1)]
  rw [accentSub_of_none (fun c hc => (hcls c hc).2.2.2.1)]
  rw [accentSub_of_none (fun c hc => (hcls c hc).2.2.2.2.1)]
  rw [accentSub_of_none (fun c hc => (hcls c hc).2.2.2.2.2.1)]
  rw [accentSub_of_none (fun c hc => (hcls c hc).2.2.2.2.2.2)]

/-- C4: accent folding is idempotent: applying `remove_accents` to an
already-folded string returns it unchanged, i.e. `fold (fold s) = fold s`. -/
theorem c4_remove_accents_idempotent :
    ∀ s : String, remove_accents (remove_accents s) = remove_accents s := by
  intro s
  show (⟨removeAccentsL (String.data ⟨removeAccentsL s.data⟩)⟩ : String) = ⟨removeAccentsL s.data⟩
  have hd : String.data ⟨removeAccentsL s.data⟩ = removeAccentsL s.data := rfl
  rw [hd, removeAccentsL_fixed (fun c hc => removeAccentsL_noAccent c hc)]

/-- C3: determiner reversion.  A title starting with a known multi-word prefix
phrase, or with a single determiner followed by whitespace, has that leading
phrase moved to the end in parentheses; prefix phrases are tried before bare
determiners; any other title is returned unchanged.  In particular
"Les Aventures De Rahan" becomes "Rahan (Les Aventures De)" and
"Les Schtroumpfs" becomes "Schtroumpfs (Les)". -/
theorem c3_revert_determiner :
    revert_determiner "Les Aventures De Rahan" = "Rahan (Les Aventures De)" ∧
    revert_determiner "Les Schtroumpfs" = "Schtroumpfs (Les)" ∧
    (∀ t p, altMatch PREFIXES t = some p →
      revert_determiner t = pyStrip (pyCutStart p t) ++ " (" ++ pyCutEnd " " p ++ ")") ∧
    (∀ t p, altMatch PREFIXES t = none → altMatch DETERMINERS t = some p →
      revert_determiner t = pyStrip (pyCutStart p t) ++ " (" ++ pyCutEnd " " p ++ ")") ∧
    (∀ t, altMatch PREFIXES t = none → altMatch DETERMINERS t = none →
      revert_determiner t = t) := by
  refine ⟨by decide, by decide, ?_, ?_, ?_⟩
  · intro t p h
    simp only [revert_determiner, h]
  · intro t p h1 h2
    simp only [revert_determiner, h1, h2]
  · intro t h1 h2
    simp only [revert_determiner, h1, h2]

/-- Witness for C3: the three conditional parts applied at concrete inputs. -/
theorem c3_revert_determiner_witness :
    revert_determiner "Une Aventure De Spirou" =
      pyStrip (pyCutStart "Une Aventure De" "Une Aventure De Spirou") ++ " (" ++
        pyCutEnd " " "Une Aventure De" ++ ")" ∧
    revert_determiner "The Hobbit" =
      pyStrip (pyCutStart "The" "The Hobbit") ++ " (" ++ pyCutEnd " " "The" ++ ")" ∧
    revert_determiner "Blacksad" = "Blacksad" := by
  refine ⟨?_, ?_, ?_⟩
  · exact c3_revert_determiner.2.2.1 "Une Aventure De Spirou" "Une Aventure De" (by decide)
  · exact c3_revert_determiner.2.2.2.1 "The Hobbit" "The" (by decide) (by decide)
  · exact c3_revert_determiner.2.2.2.2 "Blacksad" (by decide) (by decide)

/-- Counterexample for C5: two candidates ("Foo" and "FOO") both match the
searched title "foo" case-insensitively, so there is not *exactly one*
case-insensitive match, yet `search_for_series` returns the first match
immediately instead of entering the interactive disambiguation protocol. -/
theorem c5_counterexample :
    (List.countP (serieTitleMatches "foo") [Serie.mk "Foo" "u1", Serie.mk "FOO" "u2"] = 2) ∧
    searchResolveAction "foo" [Serie.mk "Foo" "u1", Serie.mk "FOO" "u2"] =
      ResolveAction.immediate (Serie.mk "Foo" "u1") := by
  decide

lemma find?_eq_some_first {α : Type} {p : α → Bool} :
    ∀ {l : List α} {a : α}, l.find? p = some a ↔
      (p a = true ∧ ∃ l1 l2, l = l1 ++ a :: l2 ∧ ∀ x ∈ l1, p x = false) := by
  intro l
  induction l with
  | nil =>
    intro a
    constructor
    · intro h; simp [List.find?] at h
    · rintro ⟨-, l1, l2, heq, -⟩
      exact absurd heq (by simp)
  | cons x xs ih =>
    intro a
    constructor
    · intro h
      cases hp : p x with
      | true =>
        rw [List.find?_cons_of_pos _ hp] at h
        injection h with h
        subst h
        exact ⟨hp, [], xs, rfl, by simp⟩
      | false =>
        rw [List.find?_cons_of_neg _ (by simp [hp])] at h
        obtain ⟨ha, l1, l2, heq, hl1⟩ := ih.mp h
        refine ⟨ha, x :: l1, l2, by rw [heq]; rfl, ?_⟩
        intro y hy
        rcases List.mem_cons.mp hy with rfl | hy2
        · exact hp
        · exact hl1 y hy2
    · rintro ⟨ha, l1, l2, heq, hl1⟩
      cases l1 with
      | nil =>
        simp only [List.nil_append] at heq
        injection heq with h1 h2
        subst h1
        exact List.find?_cons_of_pos _ ha
      | cons y ys =>
        simp only [List.cons_append] at heq
        injection heq with h1 h2
        subst h1
        subst h2
        have hy : p x = false := hl1 x (List.mem_cons_self _ _)
        rw [List.find?_cons_of_neg _ (by simp [hy])]
        exact ih.mpr ⟨ha, ys, l2, rfl, fun z hz => hl1 z (List.mem_cons_of_mem _ hz)⟩

/-- C5 (amended): catalog resolution returns a candidate immediately exactly
when *at least one* candidate's display title case-insensitively equals the
original title, and the returned candidate is the *first* such match in
candidate order (all earlier candidates fail the comparison); only when no
candidate matches does it enter the interactive protocol, whose menu presents
the 1-indexed candidate list plus "other" and "quit" options. -/
theorem c5_resolution_amended :
    ∀ (series_name : String) (series : List Serie),
      (searchResolveAction series_name series = ResolveAction.interactive ↔
        ∀ x ∈ series, ¬ serieTitleMatches series_name x) ∧
      (∀ s, searchResolveAction series_name series = ResolveAction.immediate s ↔
        serieTitleMatches series_name s = true ∧
        ∃ l1 l2, series = l1 ++ s :: l2 ∧
          ∀ x ∈ l1, serieTitleMatches series_name x = false) ∧
      (series ≠ [] → menuEntries series =
        (series.enum.map fun p => (p.1 + 1, p.2.title)) ++
          [(series.length + 1, "other"), (series.length + 2, "quit")]) := by
  intro series_name series
  refine ⟨?_, ?_, ?_⟩
  · constructor
    · intro h
      cases hf : series.find? (serieTitleMatches series_name) with
      | some s => simp [searchResolveAction, hf] at h
      | none => exact fun x hx => by simpa using List.find?_eq_none.mp hf x hx
    · intro h
      have hf : series.find? (serieTitleMatches series_name) = none :=
        List.find?_eq_none.mpr fun x hx => by simpa using h x hx
      simp [searchResolveAction, hf]
  · intro s
    constructor
    · intro h
      cases hf : series.find? (serieTitleMatches series_name) with
      | some s0 =>
        simp only [searchResolveAction, hf, ResolveAction.immediate.injEq] at h
        subst h
        exact find?_eq_some_first.mp hf
      | none => simp [searchResolveAction, hf] at h
    · intro hfirst
      have hf : series.find? (serieTitleMatches series_name) = some s :=
        find?_eq_some_first.mpr hfirst
      simp [searchResolveAction, hf]
  · intro hne
    simp [menuEntries, List.isEmpty_iff, hne]

example : parseBDFile "Blacksad - T04 - Amarillo" [] =
    { number := some "4", found_number := " T04", title := some "Blacksad" } := by decide

example : get_number "Tintin 1999" = none := by decide

/-- C1: title extraction iterates candidates in order (stem first, then
ancestors nearest-first), processing each candidate by truncating at the
matched number substring, keeping the part before `" - "`, collapsing
duplicated whitespace, stripping trailing punctuation and taking the first
leading word-run match; on the stem "Série Fictive - 12 - Episode" with no
ancestors this yields title "Série Fictive" and number "12". -/
theorem c1_title_extraction :
    parseBDFile "Série Fictive - 12 - Episode" [] =
      { number := some "12", found_number := "12", title := some "Série Fictive" } ∧
    (∀ fn c cs t, processCandidate fn c = some t → getTitleLoop fn (c :: cs) = some t) ∧
    (∀ fn c cs, processCandidate fn c = none → getTitleLoop fn (c :: cs) = getTitleLoop fn cs) := by
  refine ⟨by decide, ?_, ?_⟩
  · intro fn c cs t h
    simp only [getTitleLoop, h]
  · intro fn c cs h
    simp only [getTitleLoop, h]

/-- Witness for C1: the candidate-iteration facts applied at concrete
inputs (a stem that matches, and a first candidate that fails so that the
scan moves to the ancestor directory name). -/
theorem c1_title_extraction_witness :
    getTitleLoop "12".data ["Série Fictive - 12 - Episode".data, "X".data] =
      some "Série Fictive".data ∧
    getTitleLoop [] ["###".data, "Rahan".data] = getTitleLoop [] ["Rahan".data] := by
  constructor
  · exact c1_title_extraction.2.1 "12".data "Série Fictive - 12 - Episode".data
      ["X".data] "Série Fictive".data (by decide)
  · exact c1_title_extraction.2.2 [] "###".data ["Rahan".data] (by decide)

lemma getNumberAux_no_year :
    ∀ (ps : List (List Char → Option (List Char × List Char))) (s : List Char)
      (r : NumberResult), getNumberAux ps s = some r → isProbableYear r.raw = false := by
  intro ps
  induction ps with
  | nil => intro s r h; simp [getNumberAux] at h
  | cons p ps ih =>
    intro s r h
    simp only [getNumberAux] at h
    cases hp : p s with
    | none => rw [hp] at h; exact ih s r h
    | some pr =>
      obtain ⟨block, num⟩ := pr
      rw [hp] at h
      cases hy : isProbableYear num with
      | true => simp only [hy, if_true] at h; exact ih s r h
      | false =>
        simp only [hy, Bool.false_eq_true, if_false, Option.some.injEq] at h
        rw [← h]
        exact hy

/-- C2: a pattern match whose digits group is a 4-digit number starting with
"19" or "20" is never accepted: `get_number` never returns such a raw match,
and a probable-year match on one pattern makes the loop continue with the
remaining patterns in sequence (not restart from the top). -/
theorem c2_year_rejection :
    (∀ (s : String) (r : NumberResult), get_number s = some r →
      isProbableYear r.raw = false) ∧
    (∀ (p : List Char → Option (List Char × List Char))
      (ps : List (List Char → Option (List Char × List Char)))
      (s block num : List Char), p s = some (block, num) → isProbableYear num = true →
      getNumberAux (p :: ps) s = getNumberAux ps s) := by
  constructor
  · intro s r h
    exact getNumberAux_no_year NUMBER_PATTERNS s.data r h
  · intro p ps s block num hp hy
    simp only [getNumberAux, hp, hy, if_true]

/-- Witness for C2: on the stem "X T1999 - 7 -" the first two patterns match
the probable year 1999 and are skipped, the accepted match is "7"; the
skip-to-next-pattern equation is applied to the `T<digits>` pattern. -/
theorem c2_year_rejection_witness :
    isProbableYear (NumberResult.raw ⟨" - 7 -".data, "7".data, "7".data⟩) = false ∧
    getNumberAux [searchPos matchAtT] "X T1999".data = getNumberAux [] "X T1999".data := by
  constructor
  · exact c2_year_rejection.1 "X T1999 - 7 -" ⟨" - 7 -".data, "7".data, "7".data⟩ (by decide)
  · exact c2_year_rejection.2 (searchPos matchAtT) [] "X T1999".data
      " T1999".data "1999".data (by decide) (by decide)

/-- Witness for C5 (amended): the interactive branch, the immediate branch
returning the first match (a non-matching candidate before it and a second
match after it), and the menu layout, all at concrete inputs. -/
theorem c5_resolution_amended_witness :
    searchResolveAction "nope" [Serie.mk "Bar" "u"] = ResolveAction.interactive ∧
    searchResolveAction "bar"
      [Serie.mk "Baz" "u0", Serie.mk "Bar" "u1", Serie.mk "BAR" "u2"] =
      ResolveAction.immediate (Serie.mk "Bar" "u1") ∧
    menuEntries [Serie.mk "Bar" "u"] = [(1, "Bar"), (2, "other"), (3, "quit")] := by
  refine ⟨?_, ?_, ?_⟩
  · exact (c5_resolution_amended "nope" [Serie.mk "Bar" "u"]).1.mpr (by decide)
  · exact ((c5_resolution_amended "bar"
      [Serie.mk "Baz" "u0", Serie.mk "Bar" "u1", Serie.mk "BAR" "u2"]).2.1
      (Serie.mk "Bar" "u1")).mpr
      ⟨by decide, [Serie.mk "Baz" "u0"], [Serie.mk "BAR" "u2"], rfl, by decide⟩
  · exact ((c5_resolution_amended "x" [Serie.mk "Bar" "u"]).2.2 (by decide)).trans (by decide)

/-- C6: a series page with neither the multi-album list markup nor the
single-album markup makes `get_albums` raise; it never returns an album list
(in particular never a silent empty one). -/
theorem c6_no_album_markup :
    ∀ (serie : Serie) (doc : SerieDoc), doc.albumsListDiv = none → doc.albumMain = none →
      (∃ e, get_albums serie doc = Except.error e) ∧
      ∀ l, get_albums serie doc ≠ Except.ok l := by
  intro serie doc h1 h2
  cases hg : genreOf doc with
  | error e =>
    exact ⟨⟨e, by simp [get_albums, hg]⟩, fun l => by simp [get_albums, hg]⟩
  | ok g =>
    refine ⟨⟨"No album found", ?_⟩, fun l => ?_⟩ <;> simp [get_albums, hg, h1, h2]

/-- Witness for C6: a concrete markup-free series page. -/
theorem c6_no_album_markup_witness :
    (∃ e, get_albums (Serie.mk "S" "u") (SerieDoc.mk none none none) = Except.error e) ∧
    ∀ l, get_albums (Serie.mk "S" "u") (SerieDoc.mk none none none) ≠ Except.ok l :=
  c6_no_album_markup (Serie.mk "S" "u") (SerieDoc.mk none none none) rfl rfl

lemma mkAuthor_found_name {fn url : String} {a : Author}
    (h : mkAuthor fn url = .ok a) : a.found_name = fn := by
  simp only [mkAuthor] at h
  split at h
  · split at h
    · injection h with h; rw [← h]
    · exact absurd h (by simp)
  · injection h with h; rw [← h]

lemma get_author_info_ok_some {blk : Block} {role : String} {a : Author}
    (h : get_author_info_from_block blk role = .ok (some a)) :
    sentinelNames.contains a.found_name = false := by
  cases hblk : blk.href with
  | none =>
    simp only [get_author_info_from_block, hblk] at h
    exact Except.noConfusion h
  | some url =>
    simp only [get_author_info_from_block, hblk] at h
    by_cases hs : sentinelNames.contains (rawNameOf blk role) = true
    · rw [if_pos hs] at h
      injection h with h2
      exact Option.noConfusion h2
    · rw [if_neg hs] at h
      cases hm : mkAuthor (rawNameOf blk role) url with
      | error e => rw [hm] at h; simp [Except.map] at h
      | ok a0 =>
        rw [hm] at h
        simp only [Except.map, Except.ok.injEq, Option.some.injEq] at h
        rw [← h, mkAuthor_found_name hm]
        simpa using hs

lemma mapExcept_mem {α β : Type} {f : α → Except String β} :
    ∀ {l : List α} {ys : List β}, mapExcept f l = .ok ys → ∀ y ∈ ys, ∃ x ∈ l, f x = .ok y := by
  intro l
  induction l with
  | nil =>
    intro ys h y hy
    simp only [mapExcept, Except.ok.injEq] at h
    rw [← h] at hy
    simp at hy
  | cons x xs ih =>
    intro ys h y hy
    simp only [mapExcept] at h
    cases hf : f x with
    | error e => rw [hf] at h; exact absurd h (by simp)
    | ok y0 =>
      rw [hf] at h
      cases hm : mapExcept f xs with
      | error e => rw [hm] at h; exact absurd h (by simp)
      | ok ys0 =>
        rw [hm] at h
        simp only [Except.ok.injEq] at h
        rw [← h] at hy
        rcases List.mem_cons.mp hy with rfl | hy0
        · exact ⟨x, List.mem_cons_self _ _, hf⟩
        · obtain ⟨x1, hx1, hfx1⟩ := ih hm y hy0
          exact ⟨x1, List.mem_cons_of_mem _ hx1, hfx1⟩

/-- C7: a contributor block whose extracted raw name is a sentinel
placeholder contributes nothing; `get_authors` keeps the other contributors
of the role's block sequence in order (it equals the ordered filtering of the
per-block extraction results), and every author it returns — hence every name
in the role's comma-joined display string — has a non-sentinel raw name. -/
theorem c7_sentinel_contributors :
    (∀ (block : Block) (role url : String), block.href = some url →
      sentinelNames.contains (rawNameOf block role) = true →
      get_author_info_from_block block role = .ok none) ∧
    (∀ (content : List Block) (role : String) (b : Block) (rest : List Block)
      (opts : List (Option Author)),
      findStart content role = .ok (some (b, rest)) →
      mapExcept (fun blk => get_author_info_from_block blk role) (b :: takeConts rest) =
        .ok opts →
      get_authors content role = .ok (opts.filterMap id) ∧
      roleDisplay (opts.filterMap id) =
        joinSep ", " ((opts.filterMap id).map Author.name) ∧
      ∀ a ∈ opts.filterMap id, sentinelNames.contains a.found_name = false) := by
  constructor
  · intro block role url hh hs
    simp only [get_author_info_from_block, hh]
    rw [if_pos hs]
  · intro content role b rest opts hfind hmap
    refine ⟨?_, rfl, ?_⟩
    · simp only [get_authors, hfind, hmap]
    · intro a ha
      obtain ⟨o, ho, hoa⟩ := List.mem_filterMap.mp ha
      simp only [id] at hoa
      subst hoa
      obtain ⟨blk, _, hfx⟩ := mapExcept_mem hmap (some a) ho
      exact get_author_info_ok_some hfx

/-- Witness for C7: a role block sequence holding a real contributor, a
sentinel continuation block (dropped) and a second real contributor. -/
theorem c7_sentinel_contributors_witness :
    get_author_info_from_block (Block.mk (some " ") "<N&B>" (some "u1")) "Scénario :" =
      .ok none ∧
    get_authors
      [Block.mk (some "Scénario :") "Scénario : Alpha, Bob" (some "u0"),
       Block.mk (some " ") "<N&B>" (some "u1"),
       Block.mk (some "") "Gamma" (some "u2"),
       Block.mk (some "Dessin :") "Dessin : X" (some "u3")] "Scénario :" =
      .ok [Author.mk "Alpha, Bob" "u0" "Bob Alpha" "Bob" "Alpha",
           Author.mk "Gamma" "u2" "Gamma" "" ""] := by
  constructor
  · exact c7_sentinel_contributors.1 (Block.mk (some " ") "<N&B>" (some "u1"))
      "Scénario :" "u1" rfl (by decide)
  · exact ((c7_sentinel_contributors.2
      [Block.mk (some "Scénario :") "Scénario : Alpha, Bob" (some "u0"),
       Block.mk (some " ") "<N&B>" (some "u1"),
       Block.mk (some "") "Gamma" (some "u2"),
       Block.mk (some "Dessin :") "Dessin : X" (some "u3")] "Scénario :"
      (Block.mk (some "Scénario :") "Scénario : Alpha, Bob" (some "u0"))
      [Block.mk (some " ") "<N&B>" (some "u1"),
       Block.mk (some "") "Gamma" (some "u2"),
       Block.mk (some "Dessin :") "Dessin : X" (some "u3")]
      [some (Author.mk "Alpha, Bob" "u0" "Bob Alpha" "Bob" "Alpha"), none,
       some (Author.mk "Gamma" "u2" "Gamma" "" "")]
      rfl rfl).1).trans rfl

/-- C8: serialization maps every `Album` field to the PascalCase form of its
name, except `language_iso` which maps to the literal "LanguageISO"; the
fields tagged not-included (`url`, the seven per-role contributor lists,
`isbn`, `barcode`) are omitted; the list-valued `pages` field serializes each
element through the same mapping (`page_to_dict`). -/
theorem c8_to_dict_mapping :
    (∀ a : Album, album_to_dict a = .ok
      [("Title", .str a.title), ("Series", .str a.series), ("Number", .str a.number),
       ("Count", .int a.count), ("Volume", .int a.volume),
       ("AlternateSeries", .str a.alternate_series),
       ("AlternateNumber", .str a.alternate_number),
       ("AlternateCount", .int a.alternate_count), ("Summary", .str a.summary),
       ("Notes", .str a.notes), ("Year", .int a.year), ("Month", .int a.month),
       ("Day", .int a.day), ("Writer", .str a.writer), ("Penciller", .str a.penciller),
       ("Inker", .str a.inker), ("Colorist", .str a.colorist),
       ("Letterer", .str a.letterer), ("CoverArtist", .str a.cover_artist),
       ("Editor", .str a.editor), ("Publisher", .str a.publisher),
       ("Imprint", .str a.imprint), ("Genre", .str a.genre), ("Web", .str a.web),
       ("PageCount", .int a.page_count), ("LanguageISO", .str a.language_iso),
       ("Format", .str a.format), ("BlackAndWhite", .str a.black_and_white),
       ("Manga", .str a.manga), ("Characters", .str a.characters),
       ("Teams", .str a.teams), ("Locations", .str a.locations),
       ("ScanInformation", .str a.scan_information), ("StoryArc", .str a.story_arc),
       ("SeriesGroup", .str a.series_group), ("AgeRating", .str a.age_rating),
       ("Pages", .dicts (a.pages.map page_to_dict)),
       ("CommunityRating", .rat a.community_rating),
       ("MainCharacterOrTeam", .str a.main_character_or_team),
       ("Review", .str a.review)]) ∧
    ∀ p : Page, page_to_dict p =
      [("Image", .int p.image), ("Type", .str p.type),
       ("DoublePage", .bool p.double_page), ("ImageSize", .int p.image_size),
       ("Key", .str p.key), ("Bookmark", .str p.bookmark),
       ("ImageWidth", .int p.image_width), ("ImageHeight", .int p.image_height)] := by
  exact ⟨fun a => rfl, fun p => rfl⟩

lemma scrape_info_ipBlocked (fetch : String → FetchedDoc) (url : String)
    (h : pyIn IP_BLOCK_MARKER (fetch url).content = true) :
    scrape_info_from_url fetch url = .error .ipBlocked := by
  simp [scrape_info_from_url, h]

/-- C9: content containing the IP-block marker makes `scrape_info_from_url`
raise `ipBlocked` (a distinct hard error, not the soft `none` of ordinary
per-item failures); the batch loop of `series.main` does not catch it, so the
whole batch stops with that error, whereas a soft failure just moves on to
the remaining files. -/
theorem c9_ip_block_batch_fatal :
    (∀ (fetch : String → FetchedDoc) (url : String),
      pyIn IP_BLOCK_MARKER (fetch url).content = true →
      scrape_info_from_url fetch url = .error .ipBlocked) ∧
    (∀ (fetch : String → FetchedDoc) (st : BatchState) (f : BookFile)
      (fs : List BookFile) (url : String),
      st.treated.contains f.parent = false → f.url = some url →
      bedethequeUrl url = true → pyIn IP_BLOCK_MARKER (fetch url).content = true →
      processAll fetch st (f :: fs) = .error .ipBlocked) ∧
    (∀ (fetch : String → FetchedDoc) (st : BatchState) (f : BookFile)
      (fs : List BookFile) (url : String),
      st.treated.contains f.parent = false → f.url = some url →
      bedethequeUrl url = true → scrape_info_from_url fetch url = .ok none →
      processAll fetch st (f :: fs) =
        processAll fetch { st with treated := st.treated ++ [f.parent] } fs) := by
  refine ⟨scrape_info_ipBlocked, ?_, ?_⟩
  · intro fetch st f fs url ht hu hb hm
    have ht2 : f.parent ∉ st.treated := by simpa using ht
    have hone : processOne fetch st f = .error .ipBlocked := by
      simp [processOne, ht2, hu, hb, scrape_info_ipBlocked fetch url hm]
    simp [processAll, hone]
  · intro fetch st f fs url ht hu hb hsoft
    have ht2 : f.parent ∉ st.treated := by simpa using ht
    have hone : processOne fetch st f = .ok { st with treated := st.treated ++ [f.parent] } := by
      simp [processOne, ht2, hu, hb, hsoft]
    simp [processAll, hone]

/-- Witness for C9: a fetch oracle answering with the IP-block marker stops
a two-file batch at the first file. -/
theorem c9_ip_block_batch_fatal_witness :
    scrape_info_from_url (fun _ => FetchedDoc.mk "Votre IP a ete bloquee" none none) "u" =
      .error .ipBlocked ∧
    processAll (fun _ => FetchedDoc.mk "Votre IP a ete bloquee" none none)
      (BatchState.mk [] [])
      [BookFile.mk "p" (some "https://www.bedetheque.com/x"), BookFile.mk "q" none] =
      .error .ipBlocked := by
  constructor
  · exact c9_ip_block_batch_fatal.1 (fun _ => FetchedDoc.mk "Votre IP a ete bloquee" none none)
      "u" (by decide)
  · exact c9_ip_block_batch_fatal.2.1
      (fun _ => FetchedDoc.mk "Votre IP a ete bloquee" none none)
      (BatchState.mk [] []) (BookFile.mk "p" (some "https://www.bedetheque.com/x"))
      [BookFile.mk "q" none] "https://www.bedetheque.com/x"
      (by decide) rfl (by decide) (by decide)

/-- C10: an empty wanted-number list is falsy in Python, so no filtering is
applied and every stub album proceeds to the detail stage exactly as with no
filter; filtering only happens for a non-empty list. -/
theorem c10_empty_numbers_no_filter :
    ∀ (albums : List Album) (get_info : Album → Option Album),
      filter_albums albums (some []) = albums ∧
      filter_albums albums none = albums ∧
      scrapeDetailStage albums (some []) get_info = scrapeDetailStage albums none get_info ∧
      (∀ ns : List String, ns ≠ [] → filter_albums albums (some ns) =
        albums.filter fun x => ns.contains (pyLower x.number)) := by
  intro albums get_info
  refine ⟨?_, ?_, ?_, ?_⟩
  · simp [filter_albums, numbersTruthy]
  · simp [filter_albums, numbersTruthy]
  · simp [scrapeDetailStage, filter_albums, numbersTruthy]
  · intro ns hns
    simp [filter_albums, numbersTruthy, List.isEmpty_iff, hns]

/-- Witness for C10: the non-empty branch applied at a concrete list. -/
theorem c10_empty_numbers_no_filter_witness :
    filter_albums [mkAlbumStub "T" "u" "4" "S" ""] (some ["4"]) =
      List.filter (fun x => ["4"].contains (pyLower x.number))
        [mkAlbumStub "T" "u" "4" "S" ""] :=
  (c10_empty_numbers_no_filter [mkAlbumStub "T" "u" "4" "S" ""] (fun a => some a)).2.2.2
    ["4"] (by decide)

end Bedetheque
